import Mathlib

/-!
Verification development for the Lossy escrow-mint service.

The definitions below are a shallow embedding of the JavaScript source:
  - lib/wallet.js      : HD keypair derivation (deriveKeypair, getMasterKeypair,
                         getSessionKeypair)
  - lib/solana.js      : ledger utilities (REQUIRED_USDC, getUsdcBalance,
                         findUsdcSender, sweepUsdc, sweepSol)
  - api/session.js     : session-creation handler
  - api/poll/[sessionId].js : the poll handler (session controller)

External calls (Redis, the Solana RPC, Pinata) are modelled by explicit
environment records holding the outcome each call would produce, and the
handlers return an effect trace recording which external operations were
performed, in order.  Machine numbers are Nat / Int; fallible steps are
Except values.
-/

namespace Lossy

/-- lib/solana.js: REQUIRED_USDC = 2_250_000 raw units (6 decimals, 2.25 USDC). -/
def REQUIRED_USDC : Nat := 2250000

/-- lib/solana.js: the USDC mint address on Solana mainnet. -/
def usdcMintAddr : String := "EPjFWdd5AufqSSqeM2qN1xzybapC8G4wEGGkZwyTDt1v"

/-- lib/solana.js sweepSol: fee = 5000 lamports reserved for the transfer fee. -/
def SWEEP_SOL_FEE : Nat := 5000

/-- api/session.js: SESSION_TTL = 60 * 30 seconds. -/
def SESSION_TTL : Nat := 1800

/-- api/poll/[sessionId].js: TTL used for in-progress session writes (60 * 60). -/
def POLL_TTL_SHORT : Nat := 3600

/-- api/poll/[sessionId].js: TTL used for terminal session writes (60 * 60 * 24). -/
def POLL_TTL_LONG : Nat := 86400

/-! ### Key derivation (lib/wallet.js)

A derived keypair is represented by its derivation inputs: the master seed
phrase and the account index of the BIP44 path m/44h/501h/indexh/0h.
The ed25519 HD derivation used by lib/wallet.js is a deterministic function
of these two inputs and is injective in the index for a fixed seed, so the
pair of inputs faithfully stands for the keypair. -/

structure HDKeypair where
  seedPhrase : String
  pathIndex : Nat
deriving DecidableEq, Repr

/-- lib/wallet.js deriveKeypair: derive the child keypair of the master
mnemonic at the given index. -/
def deriveKeypair (mnemonic : String) (index : Nat) : HDKeypair :=
  { seedPhrase := mnemonic, pathIndex := index }

/-- lib/wallet.js getMasterKeypair: index 0, used for minting and sweeping. -/
def getMasterKeypair (mnemonic : String) : HDKeypair :=
  deriveKeypair mnemonic 0

/-- lib/wallet.js getSessionKeypair: offset by 1000 so session wallets never
collide with the master key at index 0. -/
def getSessionKeypair (mnemonic : String) (sessionIndex : Nat) : HDKeypair :=
  deriveKeypair mnemonic (1000 + sessionIndex)

/-- Base58 rendering of the public key of a derived keypair, modelled as an
injective function of the derivation inputs. -/
def publicKeyBase58 (k : HDKeypair) : String :=
  k.seedPhrase ++ ":" ++ toString k.pathIndex

/-- lib/redis.js incr: the atomic INCR of the session counter. Returns the
new counter value, which is also the value handed to the caller. -/
def redisIncr (counter : Nat) : Nat × Nat :=
  (counter + 1, counter + 1)

/-! ### Ledger history and findUsdcSender (lib/solana.js) -/

/-- One entry of a transaction meta preTokenBalances / postTokenBalances list. -/
structure TokenBalance where
  accountIndex : Nat
  mint : String
  owner : String
  amount : Nat
deriving DecidableEq, Repr

/-- The token-balance meta of one fetched transaction. -/
structure TxMeta where
  preTokenBalances : List TokenBalance
  postTokenBalances : List TokenBalance
deriving DecidableEq, Repr

/-- findUsdcSender: postAmt is the post balance of the account with the same
accountIndex, defaulting to 0 when no post entry exists. -/
def postAmountFor (post : List TokenBalance) (idx : Nat) : Nat :=
  match post.find? (fun p => p.accountIndex == idx) with
  | some p => p.amount
  | none => 0

/-- Inner loop of lib/solana.js findUsdcSender over the preTokenBalances of a
single transaction: skip entries of other mints, and return the owner of the
first account whose USDC balance decreased and whose owner is not the
receiving wallet. -/
def findSenderInTx (receiver : String) (post : List TokenBalance) :
    List TokenBalance → Option String
  | [] => none
  | pre :: rest =>
    if pre.mint ≠ usdcMintAddr then findSenderInTx receiver post rest
    else if postAmountFor post pre.accountIndex < pre.amount ∧ pre.owner ≠ receiver then
      some pre.owner
    else findSenderInTx receiver post rest

/-- Outer loop of lib/solana.js findUsdcSender over the signature list,
most recent first; a transaction that could not be fetched (null) is skipped. -/
def findUsdcSenderList (receiver : String) : List (Option TxMeta) → Option String
  | [] => none
  | none :: rest => findUsdcSenderList receiver rest
  | some tx :: rest =>
    match findSenderInTx receiver tx.postTokenBalances tx.preTokenBalances with
    | some s => some s
    | none => findUsdcSenderList receiver rest

/-- lib/solana.js findUsdcSender: getSignaturesForAddress is called with
limit 10, so only the 10 most recent entries of the history are scanned. -/
def findUsdcSender (receiver : String) (history : List (Option TxMeta)) : Option String :=
  findUsdcSenderList receiver (history.take 10)

/-! ### Sweeps (lib/solana.js) -/

/-- A submitted transfer of the payment asset (the sweepUsdc transaction). -/
structure UsdcTransfer where
  fromOwner : HDKeypair
  toOwner : String
  amount : Nat
deriving DecidableEq, Repr

/-- lib/solana.js sweepUsdc: reads the current USDC balance of the derived
wallet; a zero balance returns null and submits nothing; otherwise a transfer
of the whole balance is submitted. -/
def sweepUsdc (usdcBalance : Nat) (derived : HDKeypair) (masterPk : String) :
    Option UsdcTransfer :=
  if usdcBalance = 0 then none
  else some { fromOwner := derived, toOwner := masterPk, amount := usdcBalance }

/-- A submitted transfer of native SOL (the sweepSol transaction). -/
structure SolTransfer where
  fromOwner : HDKeypair
  toOwner : String
  lamports : Nat
deriving DecidableEq, Repr

/-- lib/solana.js sweepSol: toSend = balance - fee; a non-positive remainder
returns null and submits nothing. The subtraction is over Int because the
JavaScript subtraction can go negative. -/
def sweepSol (lamportBalance : Nat) (derived : HDKeypair) (masterPk : String) :
    Option SolTransfer :=
  let toSend : Int := (lamportBalance : Int) - (SWEEP_SOL_FEE : Int)
  if toSend ≤ 0 then none
  else some { fromOwner := derived, toOwner := masterPk, lamports := toSend.toNat }

/-! ### Session records (api/session.js) -/

/-- The session record stored in Redis, as built by api/session.js.
The artifact metadata object is opaque to every claim and is elided. -/
structure Session where
  sessionId : String
  sessionIndex : Nat
  paymentAddress : String
  outputType : String
  status : String
  createdAt : Nat
  expiresAt : Nat
  requiredUsdc : Nat
  buyerWallet : Option String
  mintAddress : Option String
  mintSignature : Option String
  sweepSignature : Option String
deriving DecidableEq, Repr

/-- External operations performed by a handler, in order. -/
inductive Effect where
  | readUsdcBalance
  | scanSender
  | mintAttempt
  | sweepUsdcAttempt
  | sweepSolAttempt
  | storeWriteSession (s : Session) (ttlSeconds : Nat)
  | storeWriteAddressIndex (address : String) (sessionId : String) (ttlSeconds : Nat)
  | fundWalletAttempt
deriving DecidableEq, Repr

/-! ### String.includes (used by the poll handler on mint error messages) -/

/-- Character-list test: the first list is an initial run of the second. -/
def startsWithChars : List Char → List Char → Bool
  | [], _ => true
  | _ :: _, [] => false
  | a :: as, b :: bs => a == b && startsWithChars as bs

/-- Character-list containment, scanning every suffix. -/
def containsChars (needle : List Char) : List Char → Bool
  | [] => startsWithChars needle []
  | c :: rest => startsWithChars needle (c :: rest) || containsChars needle rest

/-- JavaScript String.prototype.includes. -/
def strIncludes (hay needle : String) : Bool :=
  containsChars needle.toList hay.toList

/-- api/poll/[sessionId].js: detection of the insufficient-lamports failure on
the mint error message. -/
def isInsufficientSol (errMsg : String) : Bool :=
  strIncludes errMsg "insufficient lamports" || strIncludes errMsg "Insufficient lamports"

/-! ### The poll handler (api/poll/[sessionId].js) -/

/-- Outcome of a successful mintNft call. -/
structure MintOk where
  mintAddress : String
  signature : String
deriving DecidableEq, Repr

/-- Outcomes the external world would produce for the calls a single poll
invocation can make. mintResult carries the thrown message on failure;
sweepUsdcResult carries the signature (null on the zero-balance no-op). -/
structure PollEnv where
  now : Nat
  testMode : Bool
  usdcBalance : Nat
  usdcSender : Option String
  mintResult : Except String MintOk
  sweepUsdcResult : Except String (Option String)
  sweepSolResult : Except String Unit
deriving Repr

/-- The JSON body shapes the poll handler can answer with. Display-only
message strings and explorer URLs are elided. -/
inductive PollResponse where
  | notFound
  | mintingInProgress
  | mintedCached (mintAddress mintSignature : Option String)
  | expired
  | pending (paymentAddress : String) (requiredUsdc receivedUsdc : Nat)
  | needsFunding (buyerWallet : Option String)
  | mintFailed (errMsg : String) (buyerWallet : Option String)
  | mintedNew (mintAddress mintSignature : Option String) (buyerWallet : Option String)
deriving DecidableEq, Repr

/-- api/poll/[sessionId].js handler, for a GET request with a sessionId.
Input: the stored session record (none when the key is absent or evicted) and
the environment outcomes. Output: the response, the final stored session
record, and the trace of external effects in program order.

Direct translation of the source: the minting and minted early returns, the
expiry check, the test-mode balance short-circuit, the pending response, the
two-step minting/buyer writes, the mint try/catch with the insufficient-
lamports split, and the sweep try/catch whose failure is only logged. -/
def pollHandler (stored : Option Session) (env : PollEnv) :
    PollResponse × Option Session × List Effect :=
  match stored with
  | none => (PollResponse.notFound, none, [])
  | some session =>
    if session.status = "minting" then
      (PollResponse.mintingInProgress, some session, [])
    else if session.status = "minted" then
      (PollResponse.mintedCached session.mintAddress session.mintSignature, some session, [])
    else if session.expiresAt < env.now then
      (PollResponse.expired, some session, [])
    else
      let balanceEffects : List Effect :=
        if env.testMode then [] else [Effect.readUsdcBalance]
      let balance : Nat := if env.testMode then REQUIRED_USDC else env.usdcBalance
      if env.testMode = false ∧ balance < REQUIRED_USDC then
        (PollResponse.pending session.paymentAddress REQUIRED_USDC balance,
          some session, balanceEffects)
      else
        let s1 := { session with status := "minting" }
        let buyer := env.usdcSender
        let s2 := { s1 with buyerWallet := buyer }
        let effs0 := balanceEffects ++
          [Effect.storeWriteSession s1 POLL_TTL_SHORT, Effect.scanSender,
           Effect.storeWriteSession s2 POLL_TTL_SHORT, Effect.mintAttempt]
        match env.mintResult with
        | Except.error errMsg =>
          if isInsufficientSol errMsg then
            let s3 := { s2 with status := "needs_funding" }
            (PollResponse.needsFunding buyer, some s3,
              effs0 ++ [Effect.storeWriteSession s3 POLL_TTL_LONG])
          else
            let s3 := { s2 with status := "paid" }
            (PollResponse.mintFailed errMsg buyer, some s3,
              effs0 ++ [Effect.storeWriteSession s3 POLL_TTL_LONG])
        | Except.ok mr =>
          let s3 := { s2 with
            status := "minted",
            mintAddress := some mr.mintAddress,
            mintSignature := some mr.signature }
          let effs1 := effs0 ++ [Effect.storeWriteSession s3 POLL_TTL_LONG]
          let resp := PollResponse.mintedNew s3.mintAddress s3.mintSignature buyer
          match env.sweepUsdcResult with
          | Except.error _ =>
            (resp, some s3, effs1 ++ [Effect.sweepUsdcAttempt])
          | Except.ok usdcSig =>
            let s4 := { s3 with sweepSignature := usdcSig }
            match env.sweepSolResult with
            | Except.error _ =>
              (resp, some s3, effs1 ++ [Effect.sweepUsdcAttempt, Effect.sweepSolAttempt])
            | Except.ok _ =>
              let s5 := { s4 with status := "swept" }
              (resp, some s5,
                effs1 ++ [Effect.sweepUsdcAttempt, Effect.sweepSolAttempt,
                  Effect.storeWriteSession s5 POLL_TTL_LONG])

/-! ### The session-creation handler (api/session.js) -/

/-- Environment of one create-session invocation: the configured mnemonic, the
current value of the Redis session counter, the clock, and the outcome the
fundDerivedWallet / initUsdcAta block would produce. -/
structure CreateEnv where
  mnemonic : String
  counter : Nat
  now : Nat
  fundingOutcome : Except String Unit
deriving Repr

/-- Response bodies of api/session.js. Display-only fields are elided. -/
inductive CreateResponse where
  | badRequest (msg : String)
  | success (sessionId paymentAddress : String) (requiredUsdc expiresAt : Nat)
deriving DecidableEq, Repr

/-- api/session.js handler for a POST request. Direct translation: validate
the body, atomically increment the counter, derive the session keypair, build
and store the pending session record and the address index, then attempt to
fund the derived wallet inside a try/catch whose failure is only logged
(non-fatal), and answer success either way. -/
def sessionHandler (outputType : Option String) (metadataPresent : Bool)
    (env : CreateEnv) : CreateResponse × Option Session × List Effect :=
  match outputType with
  | none => (CreateResponse.badRequest "Missing outputType", none, [])
  | some ot =>
    if metadataPresent = false then
      (CreateResponse.badRequest "Missing metadata", none, [])
    else
      let sessionIndex := (redisIncr env.counter).2
      let sessionKeypair := getSessionKeypair env.mnemonic sessionIndex
      let paymentAddress := publicKeyBase58 sessionKeypair
      let sessionId := "sess_" ++ toString sessionIndex ++ "_" ++ toString env.now
      let session : Session :=
        { sessionId := sessionId
          sessionIndex := sessionIndex
          paymentAddress := paymentAddress
          outputType := ot
          status := "pending"
          createdAt := env.now
          expiresAt := env.now + SESSION_TTL * 1000
          requiredUsdc := REQUIRED_USDC
          buyerWallet := none
          mintAddress := none
          mintSignature := none
          sweepSignature := none }
      let effs := [Effect.storeWriteSession session SESSION_TTL,
        Effect.storeWriteAddressIndex paymentAddress sessionId SESSION_TTL,
        Effect.fundWalletAttempt]
      match env.fundingOutcome with
      | Except.error _ =>
        -- catch (fundErr): logged, non-fatal; the session record stands.
        (CreateResponse.success sessionId paymentAddress REQUIRED_USDC session.expiresAt,
          some session, effs)
      | Except.ok _ =>
        (CreateResponse.success sessionId paymentAddress REQUIRED_USDC session.expiresAt,
          some session, effs)

/-! ### Interleaving model of two concurrent polls

The poll handler touches the shared session record with plain reads and
writes: redis.getJson at the top, and redis.set of status minting after the
balance check. The machine below restricts a poll invocation to exactly those
shared-store statements, for a session whose escrow balance is already
sufficient and whose expiry has not passed, and lets two invocations
interleave. -/

/-- Program counter of one poll invocation over the shared-store statements of
api/poll/[sessionId].js: ready = about to redis.getJson; loaded = snapshot
held, about to run the status guards and, if they pass, write minting;
wroteMinting = about to call mintNft; finished = returned. -/
inductive PollPC where
  | ready
  | loaded
  | wroteMinting
  | finished
deriving DecidableEq, Repr

/-- One in-flight poll invocation: its program counter and its private
snapshot of the stored status. -/
structure PollThread where
  pc : PollPC
  obs : String
deriving DecidableEq, Repr

/-- The shared world of two concurrent polls of one session: the stored
status, both invocations, and the number of mint transactions submitted. -/
structure TwoPollWorld where
  storeStatus : String
  t0 : PollThread
  t1 : PollThread
  mintsSubmitted : Nat
deriving DecidableEq, Repr

/-- One atomic step of one poll invocation, assuming a sufficient balance and
an unexpired session: read the status; if the snapshot is minting or minted,
return without acting; otherwise write minting and then submit the mint. -/
def pollThreadStep (store : String) (t : PollThread) (mints : Nat) :
    String × PollThread × Nat :=
  match t.pc with
  | PollPC.ready => (store, { pc := PollPC.loaded, obs := store }, mints)
  | PollPC.loaded =>
    if t.obs = "minting" ∨ t.obs = "minted" then
      (store, { t with pc := PollPC.finished }, mints)
    else
      ("minting", { t with pc := PollPC.wroteMinting }, mints)
  | PollPC.wroteMinting => (store, { t with pc := PollPC.finished }, mints + 1)
  | PollPC.finished => (store, t, mints)

/-- Scheduler step: run one atomic step of the chosen invocation. -/
def twoPollStep (w : TwoPollWorld) (tid : Bool) : TwoPollWorld :=
  if tid = false then
    let r := pollThreadStep w.storeStatus w.t0 w.mintsSubmitted
    { w with storeStatus := r.1, t0 := r.2.1, mintsSubmitted := r.2.2 }
  else
    let r := pollThreadStep w.storeStatus w.t1 w.mintsSubmitted
    { w with storeStatus := r.1, t1 := r.2.1, mintsSubmitted := r.2.2 }

/-- Run a schedule, one thread id per atomic step. -/
def runSchedule (w : TwoPollWorld) : List Bool → TwoPollWorld
  | [] => w
  | tid :: rest => runSchedule (twoPollStep w tid) rest

/-- Both polls start against a stored pending session with sufficient balance. -/
def initialTwoPollWorld : TwoPollWorld :=
  { storeStatus := "pending",
    t0 := { pc := PollPC.ready, obs := "pending" },
    t1 := { pc := PollPC.ready, obs := "pending" },
    mintsSubmitted := 0 }

/-! ### Concrete sample inputs -/

/-- A session record shaped like the output of api/session.js, at the given
status, used as a concrete evaluation input. -/
def sampleSession (status : String) : Session :=
  { sessionId := "sess_1_0"
    sessionIndex := 1
    paymentAddress := "escrow1"
    outputType := "photo"
    status := status
    createdAt := 0
    expiresAt := 1800000
    requiredUsdc := REQUIRED_USDC
    buyerWallet := none
    mintAddress := none
    mintSignature := none
    sweepSignature := none }

/-- A baseline poll environment: clock inside the session window, no test
mode, empty escrow, no detectable sender. -/
def sampleEnv : PollEnv :=
  { now := 10
    testMode := false
    usdcBalance := 0
    usdcSender := none
    mintResult := Except.error "boom"
    sweepUsdcResult := Except.ok none
    sweepSolResult := Except.ok () }

/-! ### Helper lemmas about the poll handler -/

/-- Early return of the poll handler on a stored status of minting. -/
theorem pollHandler_minting_eq (session : Session) (env : PollEnv)
    (h : session.status = "minting") :
    pollHandler (some session) env = (PollResponse.mintingInProgress, some session, []) := by
  simp [pollHandler, h]

/-- Early return of the poll handler on a stored status of minted. -/
theorem pollHandler_minted_eq (session : Session) (env : PollEnv)
    (h : session.status = "minted") :
    pollHandler (some session) env =
      (PollResponse.mintedCached session.mintAddress session.mintSignature,
        some session, []) := by
  simp [pollHandler, h]

/-- Early return of the poll handler past expiry, for any stored status other
than minting and minted. -/
theorem pollHandler_expired_eq (session : Session) (env : PollEnv)
    (h1 : session.status ≠ "minting") (h2 : session.status ≠ "minted")
    (h3 : session.expiresAt < env.now) :
    pollHandler (some session) env = (PollResponse.expired, some session, []) := by
  simp [pollHandler, h1, h2, h3]

/-- An unexpired session is never answered with the expired response. -/
theorem pollHandler_ne_expired (session : Session) (env : PollEnv)
    (h3 : ¬ session.expiresAt < env.now) :
    (pollHandler (some session) env).1 ≠ PollResponse.expired := by
  obtain ⟨now, tm, bal, snd, mres, sures, sores⟩ := env
  by_cases h1 : session.status = "minting"
  · simp [pollHandler, h1]
  by_cases h2 : session.status = "minted"
  · simp [pollHandler, h1, h2]
  cases tm <;> rcases mres with e | mr <;> rcases sures with e2 | s2 <;>
    rcases sores with e3 | u3 <;>
    simp [pollHandler, h1, h2, h3] <;> split_ifs <;> simp

/-! ### C1 -/

/-- C1: the claim asks that at most one mint transaction be submitted per
session even when two polls run concurrently with a sufficient balance,
enforced by an atomic check-and-set of the status to minting. The source
performs a plain read-then-write: under the interleaving in which both polls
read the stored pending status before either writes minting, both submit a
mint (two mint submissions), whereas a serialized execution of the same two
polls submits exactly one because the second poll observes minting. -/
theorem C1_concurrent_polls_double_mint :
    (runSchedule initialTwoPollWorld
        [false, true, false, false, true, true]).mintsSubmitted = 2 ∧
    (runSchedule initialTwoPollWorld
        [false, false, false, true, true, true]).mintsSubmitted = 1 := by
  constructor <;> decide

/-! ### C8 -/

/-- C8: key derivation is a pure function of the master secret and the index
(represented injectively by its inputs); a session keypair is derived at
index 1000 + sessionIndex, the allocated counter value is at least 1, and the
derivation index of every session keypair differs from the reserved master
index 0, so no session receives the treasury keypair. -/
theorem C8_session_keys_disjoint_from_master :
    (∀ m i j, deriveKeypair m i = deriveKeypair m j ↔ i = j) ∧
    (∀ m i, getSessionKeypair m i = deriveKeypair m (1000 + i)) ∧
    (∀ m i, (getSessionKeypair m i).pathIndex ≠ (getMasterKeypair m).pathIndex) ∧
    (∀ m c, getSessionKeypair m (redisIncr c).2 ≠ getMasterKeypair m) := by
  refine ⟨?_, ?_, ?_, ?_⟩
  · intro m i j
    constructor
    · intro h; exact congrArg HDKeypair.pathIndex h
    · intro h; rw [h]
  · intro m i; rfl
  · intro m i
    show 1000 + i ≠ 0
    omega
  · intro m c h
    have h2 : 1000 + (c + 1) = 0 := congrArg HDKeypair.pathIndex h
    omega

/-! ### C2 -/

/-- C2 counterexample: a session stored as swept is not idempotent to
re-poll. On a swept session inside its window with an empty escrow, the poll
performs a ledger balance read (a side effect) and answers pending, not the
stored mint result. -/
theorem C2_swept_poll_not_idempotent :
    (pollHandler (some (sampleSession "swept")) sampleEnv).1 =
      PollResponse.pending "escrow1" REQUIRED_USDC 0 ∧
    (pollHandler (some (sampleSession "swept")) sampleEnv).2.2 =
      [Effect.readUsdcBalance] := by
  constructor <;> decide

/-- C2 amended: for a session stored as minted, a poll is idempotent: it
answers the stored mintAddress and mintSignature, performs no external
effects, and leaves the stored record unchanged. A session stored as swept is
not short-circuited by the handler: it falls through to the expiry and
balance checks. -/
theorem C2_minted_poll_idempotent (session : Session) (env : PollEnv)
    (h : session.status = "minted") :
    pollHandler (some session) env =
      (PollResponse.mintedCached session.mintAddress session.mintSignature,
        some session, []) :=
  pollHandler_minted_eq session env h

/-- C2 witness: the minted idempotence theorem evaluated on a concrete
minted session. -/
theorem C2_minted_poll_idempotent_witness :
    pollHandler
        (some { sampleSession "minted" with
          mintAddress := some "mintA", mintSignature := some "sigA" }) sampleEnv =
      (PollResponse.mintedCached (some "mintA") (some "sigA"),
        some { sampleSession "minted" with
          mintAddress := some "mintA", mintSignature := some "sigA" }, []) :=
  C2_minted_poll_idempotent _ _ rfl

/-! ### C4 -/

/-- C4 counterexample: a session stored in the post-payment status paid and
past its expiresAt is reported expired by a poll, contradicting the claim
that expired is a side exit taken from the pre-payment pending state only. -/
theorem C4_paid_past_expiry_reported_expired :
    (pollHandler (some { sampleSession "paid" with expiresAt := 100 })
        { sampleEnv with now := 200 }).1 = PollResponse.expired := by
  decide

/-- C4 amended: a poll reports expired exactly when the session is past its
expiresAt and the stored status is neither minting nor minted — so a pending
session that never reaches the required balance reports expired once past
expiry and never transitions to minting (no store write, no effect at all),
but the side exit is not from pending only: paid, needs_funding and swept
sessions past expiry are reported expired as well. -/
theorem C4_expired_exactly_when (session : Session) (env : PollEnv) :
    ((pollHandler (some session) env).1 = PollResponse.expired ↔
      session.status ≠ "minting" ∧ session.status ≠ "minted" ∧
        session.expiresAt < env.now) ∧
    (session.expiresAt < env.now →
      (pollHandler (some session) env).2.1 = some session ∧
      (pollHandler (some session) env).2.2 = []) := by
  by_cases h1 : session.status = "minting"
  · rw [pollHandler_minting_eq session env h1]
    exact ⟨by simp [h1], fun _ => ⟨rfl, rfl⟩⟩
  by_cases h2 : session.status = "minted"
  · rw [pollHandler_minted_eq session env h2]
    exact ⟨by simp [h2], fun _ => ⟨rfl, rfl⟩⟩
  by_cases h3 : session.expiresAt < env.now
  · rw [pollHandler_expired_eq session env h1 h2 h3]
    exact ⟨by simp [h1, h2, h3], fun _ => ⟨rfl, rfl⟩⟩
  · constructor
    · constructor
      · intro habs; exact absurd habs (pollHandler_ne_expired session env h3)
      · rintro ⟨_, _, hlt⟩; exact absurd hlt h3
    · intro hlt; exact absurd hlt h3

/-- C4 witness: the amended theorem evaluated on a concrete pending session
past its expiry: the poll answers expired, leaves the store unchanged and
performs no effects. -/
theorem C4_expired_exactly_when_witness :
    (pollHandler (some { sampleSession "pending" with expiresAt := 100 })
        { sampleEnv with now := 200 }).1 = PollResponse.expired ∧
    (pollHandler (some { sampleSession "pending" with expiresAt := 100 })
        { sampleEnv with now := 200 }).2.2 = [] := by
  refine ⟨?_, ?_⟩
  · exact (C4_expired_exactly_when _ _).1.mpr (by decide)
  · exact ((C4_expired_exactly_when _ _).2 (by decide)).2

/-! ### C3 -/

/-- C3: when the mint attempt of a poll fails, the persisted status becomes
needs_funding on an insufficient-lamports failure and paid on any other
failure; in both cases the previously detected buyer identity stays stored on
the persisted session and is carried in the response. The full effect trace
shows the two pre-mint writes, the mint attempt, and the single failure
write. -/
theorem C3_mint_failure_statuses (session : Session) (env : PollEnv) (errMsg : String)
    (h1 : session.status ≠ "minting") (h2 : session.status ≠ "minted")
    (h3 : ¬ session.expiresAt < env.now)
    (h4 : env.testMode = false) (h5 : REQUIRED_USDC ≤ env.usdcBalance)
    (hm : env.mintResult = Except.error errMsg) :
    pollHandler (some session) env =
      ((if isInsufficientSol errMsg then PollResponse.needsFunding env.usdcSender
        else PollResponse.mintFailed errMsg env.usdcSender),
       some { session with
         status := if isInsufficientSol errMsg then "needs_funding" else "paid",
         buyerWallet := env.usdcSender },
       [Effect.readUsdcBalance,
        Effect.storeWriteSession { session with status := "minting" } POLL_TTL_SHORT,
        Effect.scanSender,
        Effect.storeWriteSession
          { session with status := "minting", buyerWallet := env.usdcSender }
          POLL_TTL_SHORT,
        Effect.mintAttempt,
        Effect.storeWriteSession
          { session with
            status := if isInsufficientSol errMsg then "needs_funding" else "paid",
            buyerWallet := env.usdcSender }
          POLL_TTL_LONG]) := by
  have hbal : ¬ env.usdcBalance < REQUIRED_USDC := Nat.not_lt.mpr h5
  by_cases hins : isInsufficientSol errMsg <;>
    simp [pollHandler, h1, h2, h3, h4, hm, hbal, hins]

/-- A mint error message carrying the insufficient-lamports signal. -/
def c3Msg : String := "Transaction failed: insufficient lamports 100, need 5000"

/-- Poll environment where payment is sufficient, a buyer is detected, and
the mint fails with the insufficient-lamports signal. -/
def c3Env : PollEnv :=
  { sampleEnv with
    usdcBalance := REQUIRED_USDC
    usdcSender := some "buyer1"
    mintResult := Except.error c3Msg }

/-- C3 witness: the mint-failure theorem evaluated on a concrete session with
an insufficient-lamports mint failure: the session is persisted as
needs_funding with the buyer identity kept and returned. -/
theorem C3_mint_failure_statuses_witness :
    pollHandler (some (sampleSession "pending")) c3Env =
      (PollResponse.needsFunding (some "buyer1"),
       some { sampleSession "pending" with
         status := "needs_funding", buyerWallet := some "buyer1" },
       [Effect.readUsdcBalance,
        Effect.storeWriteSession
          { sampleSession "pending" with status := "minting" } POLL_TTL_SHORT,
        Effect.scanSender,
        Effect.storeWriteSession
          { sampleSession "pending" with
            status := "minting", buyerWallet := some "buyer1" }
          POLL_TTL_SHORT,
        Effect.mintAttempt,
        Effect.storeWriteSession
          { sampleSession "pending" with
            status := "needs_funding", buyerWallet := some "buyer1" }
          POLL_TTL_LONG]) := by
  have hins : isInsufficientSol c3Msg = true := by decide
  have h := C3_mint_failure_statuses (sampleSession "pending") c3Env c3Msg
    (by decide) (by decide) (by decide) rfl (by decide) rfl
  rw [h]
  simp [hins, c3Env, sampleEnv]

/-! ### C5 -/

/-- The session record the poll handler persists at the minted step. -/
def mintedRecord (session : Session) (buyer : Option String) (mr : MintOk) : Session :=
  { session with
    status := "minted",
    buyerWallet := buyer,
    mintAddress := some mr.mintAddress,
    mintSignature := some mr.signature }

/-- C5: when the mint succeeds and the subsequent sweep fails (either the
asset sweep throws, or it succeeds and the native sweep throws), the
persisted session keeps status minted with the stored mint result, the sweep
error is not surfaced (the poll still answers the minted result), and a later
poll of the persisted session is an effect-free cached read that submits no
second mint. -/
theorem C5_sweep_failure_keeps_minted (session : Session) (env later : PollEnv)
    (mr : MintOk)
    (h1 : session.status ≠ "minting") (h2 : session.status ≠ "minted")
    (h3 : ¬ session.expiresAt < env.now)
    (h4 : env.testMode = false) (h5 : REQUIRED_USDC ≤ env.usdcBalance)
    (hm : env.mintResult = Except.ok mr)
    (hsw : (∃ e, env.sweepUsdcResult = Except.error e) ∨
           (∃ su e, env.sweepUsdcResult = Except.ok su ∧
             env.sweepSolResult = Except.error e)) :
    ∃ final, (pollHandler (some session) env).2.1 = some final ∧
      final.status = "minted" ∧
      final.mintAddress = some mr.mintAddress ∧
      final.mintSignature = some mr.signature ∧
      final.buyerWallet = env.usdcSender ∧
      (pollHandler (some session) env).1 =
        PollResponse.mintedNew (some mr.mintAddress) (some mr.signature) env.usdcSender ∧
      pollHandler (some final) later =
        (PollResponse.mintedCached (some mr.mintAddress) (some mr.signature),
          some final, []) := by
  have hbal : ¬ env.usdcBalance < REQUIRED_USDC := Nat.not_lt.mpr h5
  have key : (pollHandler (some session) env).2.1 =
      some (mintedRecord session env.usdcSender mr) ∧
      (pollHandler (some session) env).1 =
        PollResponse.mintedNew (some mr.mintAddress) (some mr.signature) env.usdcSender := by
    rcases hsw with ⟨e, he⟩ | ⟨su, e, hu, hs⟩
    · constructor <;> simp [pollHandler, h1, h2, h3, h4, hm, he, hbal, mintedRecord]
    · constructor <;> simp [pollHandler, h1, h2, h3, h4, hm, hu, hs, hbal, mintedRecord]
  refine ⟨mintedRecord session env.usdcSender mr, key.1, rfl, rfl, rfl, rfl, key.2, ?_⟩
  exact pollHandler_minted_eq _ later rfl

/-- Poll environment where payment is sufficient, the mint succeeds, and the
asset sweep throws. -/
def c5Env : PollEnv :=
  { sampleEnv with
    usdcBalance := REQUIRED_USDC
    usdcSender := some "buyer1"
    mintResult := Except.ok { mintAddress := "mintA", signature := "sigA" }
    sweepUsdcResult := Except.error "rpc timeout" }

/-- C5 witness: the sweep-failure theorem evaluated on a concrete session
whose mint succeeds and whose asset sweep throws. -/
theorem C5_sweep_failure_keeps_minted_witness :
    ∃ final, (pollHandler (some (sampleSession "pending")) c5Env).2.1 = some final ∧
      final.status = "minted" ∧
      final.mintAddress = some "mintA" ∧
      final.mintSignature = some "sigA" ∧
      final.buyerWallet = some "buyer1" ∧
      (pollHandler (some (sampleSession "pending")) c5Env).1 =
        PollResponse.mintedNew (some "mintA") (some "sigA") (some "buyer1") ∧
      pollHandler (some final) sampleEnv =
        (PollResponse.mintedCached (some "mintA") (some "sigA"), some final, []) :=
  C5_sweep_failure_keeps_minted (sampleSession "pending") c5Env sampleEnv
    { mintAddress := "mintA", signature := "sigA" }
    (by decide) (by decide) (by decide) rfl (by decide) rfl
    (Or.inl ⟨"rpc timeout", rfl⟩)

/-! ### C6 -/

/-- Poll environment where payment is sufficient, the mint succeeds, and both
sweeps succeed. -/
def c6Env : PollEnv :=
  { sampleEnv with
    usdcBalance := REQUIRED_USDC
    usdcSender := some "buyer1"
    mintResult := Except.ok { mintAddress := "mintA", signature := "sigA" }
    sweepUsdcResult := Except.ok (some "usdcSig")
    sweepSolResult := Except.ok () }

/-- C6: the sweep of the escrowed payment asset submits nothing on a zero
balance (null, not an error) and otherwise transfers the whole balance; the
native-gas sweep submits nothing when the balance minus the reserved fee
buffer is non-positive and otherwise transfers the remainder; and in the poll
workflow the asset sweep is attempted before the native sweep, as the effect
trace of a successful mint-and-sweep poll shows. -/
theorem C6_sweep_semantics (session : Session) (env : PollEnv) (mr : MintOk)
    (su : Option String)
    (h1 : session.status ≠ "minting") (h2 : session.status ≠ "minted")
    (h3 : ¬ session.expiresAt < env.now)
    (h4 : env.testMode = false) (h5 : REQUIRED_USDC ≤ env.usdcBalance)
    (hm : env.mintResult = Except.ok mr)
    (hu : env.sweepUsdcResult = Except.ok su)
    (hs : env.sweepSolResult = Except.ok ()) :
    (∀ k m, sweepUsdc 0 k m = none) ∧
    (∀ b k m, b ≠ 0 → sweepUsdc b k m =
      some { fromOwner := k, toOwner := m, amount := b }) ∧
    (∀ b k m, b ≤ SWEEP_SOL_FEE → sweepSol b k m = none) ∧
    (∀ b k m, SWEEP_SOL_FEE < b → sweepSol b k m =
      some { fromOwner := k, toOwner := m, lamports := b - SWEEP_SOL_FEE }) ∧
    (pollHandler (some session) env).2.2 =
      [Effect.readUsdcBalance,
       Effect.storeWriteSession { session with status := "minting" } POLL_TTL_SHORT,
       Effect.scanSender,
       Effect.storeWriteSession
         { session with status := "minting", buyerWallet := env.usdcSender }
         POLL_TTL_SHORT,
       Effect.mintAttempt,
       Effect.storeWriteSession (mintedRecord session env.usdcSender mr) POLL_TTL_LONG,
       Effect.sweepUsdcAttempt,
       Effect.sweepSolAttempt,
       Effect.storeWriteSession
         { mintedRecord session env.usdcSender mr with
           status := "swept", sweepSignature := su }
         POLL_TTL_LONG] := by
  have hbal : ¬ env.usdcBalance < REQUIRED_USDC := Nat.not_lt.mpr h5
  refine ⟨fun k m => rfl, ?_, ?_, ?_, ?_⟩
  · intro b k m hb
    simp [sweepUsdc, hb]
  · intro b k m hb
    have hc : (b : Int) - (SWEEP_SOL_FEE : Int) ≤ 0 := by
      have : b ≤ SWEEP_SOL_FEE := hb
      omega
    simp [sweepSol, hc]
  · intro b k m hb
    have hc : ¬ ((b : Int) - (SWEEP_SOL_FEE : Int) ≤ 0) := by
      have : SWEEP_SOL_FEE < b := hb
      omega
    have ht : ((b : Int) - (SWEEP_SOL_FEE : Int)).toNat = b - SWEEP_SOL_FEE := by
      omega
    simp [sweepSol, hc, ht]
  · simp [pollHandler, h1, h2, h3, h4, hm, hu, hs, hbal, mintedRecord]

/-- C6 witness: the sweep-semantics theorem evaluated on a concrete zero
asset balance, a concrete dust-level native balance, a concrete positive
native balance, and the effect trace of a concrete successful poll. -/
theorem C6_sweep_semantics_witness :
    sweepUsdc 0 (deriveKeypair "m" 1000) "master" = none ∧
    sweepSol 5000 (deriveKeypair "m" 1000) "master" = none ∧
    sweepSol 6000 (deriveKeypair "m" 1000) "master" =
      some { fromOwner := deriveKeypair "m" 1000, toOwner := "master", lamports := 1000 } ∧
    (pollHandler (some (sampleSession "pending")) c6Env).2.2 =
      [Effect.readUsdcBalance,
       Effect.storeWriteSession { sampleSession "pending" with status := "minting" }
         POLL_TTL_SHORT,
       Effect.scanSender,
       Effect.storeWriteSession
         { sampleSession "pending" with status := "minting", buyerWallet := c6Env.usdcSender }
         POLL_TTL_SHORT,
       Effect.mintAttempt,
       Effect.storeWriteSession
         (mintedRecord (sampleSession "pending") c6Env.usdcSender
           { mintAddress := "mintA", signature := "sigA" })
         POLL_TTL_LONG,
       Effect.sweepUsdcAttempt,
       Effect.sweepSolAttempt,
       Effect.storeWriteSession
         { mintedRecord (sampleSession "pending") c6Env.usdcSender
             { mintAddress := "mintA", signature := "sigA" } with
           status := "swept", sweepSignature := some "usdcSig" }
         POLL_TTL_LONG] := by
  have h := C6_sweep_semantics (sampleSession "pending") c6Env
    { mintAddress := "mintA", signature := "sigA" } (some "usdcSig")
    (by decide) (by decide) (by decide) rfl (by decide) rfl rfl rfl
  exact ⟨h.1 _ _, h.2.2.1 5000 _ _ (by decide), h.2.2.2.1 6000 _ _ (by decide), h.2.2.2.2⟩

/-! ### C7 -/

/-- Spec-side predicate: the pre-balance entry records a sender of the
payment asset in this transaction — it is an entry for the asset mint, the
balance at its account index decreased across the transaction, and its owner
differs from the receiving address. -/
def entrySends (receiver : String) (post : List TokenBalance) (pre : TokenBalance) : Prop :=
  pre.mint = usdcMintAddr ∧ postAmountFor post pre.accountIndex < pre.amount ∧
    pre.owner ≠ receiver

/-- Spec-side predicate: the fetched transaction (if fetched at all) contains
a qualifying sender entry. -/
def entryHasSender (receiver : String) : Option TxMeta → Prop
  | none => False
  | some tx => ∃ pre ∈ tx.preTokenBalances, entrySends receiver tx.postTokenBalances pre

/-- The inner scan answers none exactly when no pre-balance entry qualifies. -/
theorem findSenderInTx_eq_none_iff (receiver : String) (post : List TokenBalance)
    (pres : List TokenBalance) :
    findSenderInTx receiver post pres = none ↔
      ∀ pre ∈ pres, ¬ entrySends receiver post pre := by
  induction pres with
  | nil => simp [findSenderInTx]
  | cons pre rest ih =>
    simp only [findSenderInTx]
    split_ifs with hmint hdec
    · rw [ih]
      constructor
      · intro h p hp
        rcases List.mem_cons.mp hp with rfl | hp2
        · exact fun hsend => hmint hsend.1
        · exact h p hp2
      · intro h p hp
        exact h p (List.mem_cons_of_mem _ hp)
    · constructor
      · intro habs
        exact absurd habs (by simp)
      · intro h
        exact absurd ⟨not_not.mp hmint, hdec.1, hdec.2⟩ (h pre (List.mem_cons_self _ _))
    · rw [ih]
      constructor
      · intro h p hp
        rcases List.mem_cons.mp hp with rfl | hp2
        · exact fun hsend => hdec ⟨hsend.2.1, hsend.2.2⟩
        · exact h p hp2
      · intro h p hp
        exact h p (List.mem_cons_of_mem _ hp)

/-- When the inner scan answers a sender, that sender is the owner of a
qualifying pre-balance entry. -/
theorem findSenderInTx_eq_some (receiver : String) (post pres : List TokenBalance)
    (s : String) (h : findSenderInTx receiver post pres = some s) :
    ∃ pre ∈ pres, entrySends receiver post pre ∧ pre.owner = s := by
  induction pres with
  | nil => simp [findSenderInTx] at h
  | cons pre rest ih =>
    simp only [findSenderInTx] at h
    split_ifs at h with hmint hdec
    · obtain ⟨p, hp, hq⟩ := ih h
      exact ⟨p, List.mem_cons_of_mem _ hp, hq⟩
    · have hps : pre.owner = s := by simpa using h
      exact ⟨pre, List.mem_cons_self _ _,
        ⟨not_not.mp hmint, hdec.1, hdec.2⟩, hps⟩
    · obtain ⟨p, hp, hq⟩ := ih h
      exact ⟨p, List.mem_cons_of_mem _ hp, hq⟩

/-- The outer scan answers none exactly when no fetched transaction in the
list has a qualifying sender entry. -/
theorem findUsdcSenderList_eq_none_iff (receiver : String) (l : List (Option TxMeta)) :
    findUsdcSenderList receiver l = none ↔ ∀ e ∈ l, ¬ entryHasSender receiver e := by
  induction l with
  | nil => simp [findUsdcSenderList]
  | cons e rest ih =>
    cases e with
    | none =>
      rw [show findUsdcSenderList receiver (none :: rest) =
          findUsdcSenderList receiver rest from rfl, ih]
      constructor
      · intro h p hp
        rcases List.mem_cons.mp hp with rfl | hp2
        · exact not_false
        · exact h p hp2
      · intro h p hp
        exact h p (List.mem_cons_of_mem _ hp)
    | some tx =>
      rcases htx : findSenderInTx receiver tx.postTokenBalances tx.preTokenBalances
        with _ | s
      · have hno : ¬ entryHasSender receiver (some tx) := by
          intro hyes
          obtain ⟨p, hp, hq⟩ := hyes
          exact (findSenderInTx_eq_none_iff receiver tx.postTokenBalances
            tx.preTokenBalances).mp htx p hp hq
        rw [show findUsdcSenderList receiver (some tx :: rest) =
            findUsdcSenderList receiver rest from by
          simp [findUsdcSenderList, htx], ih]
        constructor
        · intro h p hp
          rcases List.mem_cons.mp hp with rfl | hp2
          · exact hno
          · exact h p hp2
        · intro h p hp
          exact h p (List.mem_cons_of_mem _ hp)
      · have hyes : entryHasSender receiver (some tx) := by
          obtain ⟨p, hp, hq, _⟩ := findSenderInTx_eq_some _ _ _ _ htx
          exact ⟨p, hp, hq⟩
        constructor
        · intro habs
          exact absurd habs (by simp [findUsdcSenderList, htx])
        · intro h
          exact absurd hyes (h _ (List.mem_cons_self _ _))

/-- When the outer scan answers a sender, the list splits at the most recent
transaction with a qualifying entry — everything before it has none — and the
answer is the owner of a qualifying entry of that transaction. -/
theorem findUsdcSenderList_eq_some (receiver : String) (l : List (Option TxMeta))
    (s : String) (h : findUsdcSenderList receiver l = some s) :
    ∃ l1 tx l2, l = l1 ++ some tx :: l2 ∧
      (∀ e ∈ l1, ¬ entryHasSender receiver e) ∧
      ∃ pre ∈ tx.preTokenBalances,
        entrySends receiver tx.postTokenBalances pre ∧ pre.owner = s := by
  induction l with
  | nil => simp [findUsdcSenderList] at h
  | cons e rest ih =>
    cases e with
    | none =>
      have h2 : findUsdcSenderList receiver rest = some s := h
      obtain ⟨l1, tx, l2, heq, hn, hex⟩ := ih h2
      refine ⟨none :: l1, tx, l2, by simp [heq], ?_, hex⟩
      intro p hp
      rcases List.mem_cons.mp hp with rfl | hp2
      · exact not_false
      · exact hn p hp2
    | some tx =>
      rcases htx : findSenderInTx receiver tx.postTokenBalances tx.preTokenBalances
        with _ | s2
      · have h2 : findUsdcSenderList receiver rest = some s := by
          simpa [findUsdcSenderList, htx] using h
        obtain ⟨l1, tx2, l2, heq, hn, hex⟩ := ih h2
        have hno : ¬ entryHasSender receiver (some tx) := by
          intro hyes
          obtain ⟨p, hp, hq⟩ := hyes
          exact (findSenderInTx_eq_none_iff receiver tx.postTokenBalances
            tx.preTokenBalances).mp htx p hp hq
        refine ⟨some tx :: l1, tx2, l2, by simp [heq], ?_, hex⟩
        intro p hp
        rcases List.mem_cons.mp hp with rfl | hp2
        · exact hno
        · exact hn p hp2
      · have hs2 : s2 = s := by
          have := h
          simp [findUsdcSenderList, htx] at this
          exact this
        obtain ⟨p, hp, hq, how⟩ := findSenderInTx_eq_some _ _ _ _ htx
        exact ⟨[], tx, rest, rfl, by simp, p, hp, hq, by rw [how, hs2]⟩

/-- C7: findUsdcSender scans only the 10 most recent entries of the transfer
history (the bounded window); it answers none — not an error — exactly when
no fetched transaction in that window contains an asset-balance entry that
decreased across the transaction with an owner other than the receiving
address; and when it answers a sender, that sender is the owner of such a
decreasing entry of the most recent transaction in the window containing one
(every more recent entry contains none). -/
theorem C7_findCounterparty_spec (receiver : String) (history : List (Option TxMeta)) :
    (findUsdcSender receiver history = none ↔
      ∀ e ∈ history.take 10, ¬ entryHasSender receiver e) ∧
    (∀ s, findUsdcSender receiver history = some s →
      ∃ l1 tx l2, history.take 10 = l1 ++ some tx :: l2 ∧
        (∀ e ∈ l1, ¬ entryHasSender receiver e) ∧
        ∃ pre ∈ tx.preTokenBalances,
          entrySends receiver tx.postTokenBalances pre ∧ pre.owner = s) :=
  ⟨findUsdcSenderList_eq_none_iff receiver _,
    fun s h => findUsdcSenderList_eq_some receiver _ s h⟩

/-- A transaction whose meta shows the account of alice decreasing in the
payment asset: a qualifying inbound transfer. -/
def c7Tx : TxMeta :=
  { preTokenBalances :=
      [{ accountIndex := 0, mint := usdcMintAddr, owner := "alice", amount := 5000000 }]
    postTokenBalances :=
      [{ accountIndex := 0, mint := usdcMintAddr, owner := "alice", amount := 2750000 }] }

/-- C7 witness: the scan theorem evaluated on a one-transaction history where
alice sent the asset to the escrow address. -/
theorem C7_findCounterparty_spec_witness :
    ∃ l1 tx l2, ([some c7Tx] : List (Option TxMeta)).take 10 = l1 ++ some tx :: l2 ∧
      (∀ e ∈ l1, ¬ entryHasSender "escrow1" e) ∧
      ∃ pre ∈ tx.preTokenBalances,
        entrySends "escrow1" tx.postTokenBalances pre ∧ pre.owner = "alice" :=
  (C7_findCounterparty_spec "escrow1" [some c7Tx]).2 "alice" (by decide)

/-! ### C9 -/

/-- C9: during a poll of an unexpired pre-mint session, payment is confirmed
exactly at the threshold REQUIRED_USDC = 2250000 raw units: below it the poll
answers pending with the received amount after a single ledger balance read
and writes nothing; at or above it the poll reads the balance and proceeds to
the mint attempt; and in test mode the poll proceeds to the mint attempt
without performing any ledger balance read. -/
theorem C9_payment_threshold (session : Session) (env : PollEnv)
    (h1 : session.status ≠ "minting") (h2 : session.status ≠ "minted")
    (h3 : ¬ session.expiresAt < env.now) :
    (env.testMode = false → env.usdcBalance < REQUIRED_USDC →
      pollHandler (some session) env =
        (PollResponse.pending session.paymentAddress REQUIRED_USDC env.usdcBalance,
          some session, [Effect.readUsdcBalance])) ∧
    (env.testMode = false → REQUIRED_USDC ≤ env.usdcBalance →
      Effect.mintAttempt ∈ (pollHandler (some session) env).2.2 ∧
      Effect.readUsdcBalance ∈ (pollHandler (some session) env).2.2) ∧
    (env.testMode = true →
      Effect.mintAttempt ∈ (pollHandler (some session) env).2.2 ∧
      Effect.readUsdcBalance ∉ (pollHandler (some session) env).2.2) ∧
    REQUIRED_USDC = 2250000 := by
  obtain ⟨now, tm, bal, snd, mres, sures, sores⟩ := env
  refine ⟨?_, ?_, ?_, rfl⟩
  · intro ht hb
    subst ht
    simp [pollHandler, h1, h2, h3, hb]
  · intro ht hb
    subst ht
    have hbal : ¬ bal < REQUIRED_USDC := Nat.not_lt.mpr hb
    rcases mres with e | mr
    · by_cases hins : isInsufficientSol e <;>
        simp [pollHandler, h1, h2, h3, hbal, hins]
    · rcases sures with e2 | s2
      · simp [pollHandler, h1, h2, h3, hbal]
      · rcases sores with e3 | u3 <;> simp [pollHandler, h1, h2, h3, hbal]
  · intro ht
    subst ht
    rcases mres with e | mr
    · by_cases hins : isInsufficientSol e <;> simp [pollHandler, h1, h2, h3, hins]
    · rcases sures with e2 | s2
      · simp [pollHandler, h1, h2, h3]
      · rcases sores with e3 | u3 <;> simp [pollHandler, h1, h2, h3]

/-- C9 witness: the threshold theorem evaluated on a concrete pending session
with a received amount of 0: the poll answers pending with the received
amount after a single balance read. -/
theorem C9_payment_threshold_witness :
    pollHandler (some (sampleSession "pending")) sampleEnv =
      (PollResponse.pending (sampleSession "pending").paymentAddress REQUIRED_USDC
          sampleEnv.usdcBalance,
        some (sampleSession "pending"), [Effect.readUsdcBalance]) :=
  (C9_payment_threshold (sampleSession "pending") sampleEnv (by decide) (by decide)
    (by decide)).1 rfl (by decide)

/-! ### C10 -/

/-- The session record api/session.js builds and stores for a given output
type, mnemonic, prior counter value and clock. -/
def createdSession (ot m : String) (c now : Nat) : Session :=
  { sessionId := "sess_" ++ toString (c + 1) ++ "_" ++ toString now
    sessionIndex := c + 1
    paymentAddress := publicKeyBase58 (getSessionKeypair m (c + 1))
    outputType := ot
    status := "pending"
    createdAt := now
    expiresAt := now + SESSION_TTL * 1000
    requiredUsdc := REQUIRED_USDC
    buyerWallet := none
    mintAddress := none
    mintSignature := none
    sweepSignature := none }

/-- C10: session creation answers success — returning the session id, payment
address and required amount — and persists the session record with status
pending, with the same response and stored record whether the
post-registration funding step succeeds or throws: the funding failure is
swallowed and never rolls back the stored session. -/
theorem C10_create_success_despite_funding_failure (ot : String) (env : CreateEnv) :
    (∃ sess, sessionHandler (some ot) true env =
        (CreateResponse.success sess.sessionId sess.paymentAddress REQUIRED_USDC
            sess.expiresAt,
          some sess,
          [Effect.storeWriteSession sess SESSION_TTL,
           Effect.storeWriteAddressIndex sess.paymentAddress sess.sessionId SESSION_TTL,
           Effect.fundWalletAttempt]) ∧
      sess.status = "pending" ∧
      sess.sessionIndex = env.counter + 1 ∧
      sess.paymentAddress =
        publicKeyBase58 (getSessionKeypair env.mnemonic (env.counter + 1))) ∧
    (∀ e, sessionHandler (some ot) true { env with fundingOutcome := Except.error e } =
        sessionHandler (some ot) true { env with fundingOutcome := Except.ok () }) := by
  obtain ⟨m, c, now, fo⟩ := env
  constructor
  · rcases fo with e | u
    · exact ⟨createdSession ot m c now, rfl, rfl, rfl, rfl⟩
    · exact ⟨createdSession ot m c now, rfl, rfl, rfl, rfl⟩
  · intro e
    rfl

end Lossy
